import Mathlib

/-!
Verification development for the StopSpotDataPipeline core: the
`Processed_Days` store (date-range materialization, bulk insert, latest-day
lookup), the generic `Table` gateway (full-table read with column-set
validation), and the `ArgInterface` command-line dispatcher (pre-scan,
conditional required-ness, typed argument parsers, dispatch).

Modelling conventions:
- Calendar dates are modelled by their ordinal day number (a `Nat`, as in
  Python's `date.toordinal()`): `timedelta(days=1)` is `+ 1` and comparison
  of dates is comparison of ordinals.  The claims under study quantify over
  already-valid dates, so the `strptime` string-parsing branch of
  `_get_date_range` (which only matters for malformed strings) is not
  exercised; the functions below take date values directly, which is the
  `isinstance(day, datetime.date)` branch of the source.
- Python strings are modelled as `List Char` so that `str.startswith`
  (prefix testing), slicing and equality are literal list operations.
- The database table behind `processed_days` is a list of its `day` column
  values; executing `INSERT ... ON CONFLICT DO NOTHING` appends each VALUES
  row whose key is not yet present (the PostgreSQL semantics of that
  statement, which also never raises a duplicate-key error).
- Fallible operations return `Option`/`Bool` exactly where the source
  returns `None`/`False` after catching an exception.
-/

namespace StopSpot

/-! ### `Processed_Days._get_date_range` (src/src/tables/processed_days.py) -/

namespace Processed_Days

/-- The body of `while curr_date < end_date: dates.append(curr_date); curr_date += delta`
starting from `curr`: the loop executes exactly `e - curr` iterations (one per
day strictly between `curr` and `e`), so it is embedded structurally with that
iteration count as fuel.  `dateLoopAux n curr` pushes `curr, curr+1, ...,
curr+n-1`. -/
def dateLoopAux : Nat → Nat → List Nat
  | 0, _ => []
  | n + 1, curr => curr :: dateLoopAux n (curr + 1)

/-- The `while curr_date < end_date` loop of `_get_date_range`, entered with
`curr_date = curr`; appends every date from `curr` up to but excluding `e`. -/
def dateLoop (curr e : Nat) : List Nat :=
  dateLoopAux (e - curr) curr

/-- `Processed_Days._get_date_range(day, end_date)` for date (not string)
inputs.  Source: `dates = [day]`; if `end_date` is given, `curr_date = day + 1`,
then the `while curr_date < end_date` loop appends intermediate dates, and
finally `dates.append(end_date)` runs unconditionally. -/
def get_date_range (day : Nat) (end_date : Option Nat) : List Nat :=
  match end_date with
  | none => [day]
  | some e => day :: (dateLoop (day + 1) e ++ [e])

/-! ### `Processed_Days.insert` and the table state -/

/-- Effect of one VALUES row of `INSERT ... ON CONFLICT DO NOTHING` on the
`processed_days` table (`day DATE PRIMARY KEY`): a row whose key already
exists is skipped, a fresh key is appended; no error is raised in either
case. -/
def insertRow (tbl : List Nat) (d : Nat) : List Nat :=
  if d ∈ tbl then tbl else tbl ++ [d]

/-- Executing the single multi-row `INSERT ... VALUES (...), ... ON CONFLICT
DO NOTHING;` statement built by `Processed_Days.insert`: the VALUES rows are
applied in order. -/
def execInsert (tbl : List Nat) (ds : List Nat) : List Nat :=
  ds.foldl insertRow tbl

/-- `self._index_col` as assigned in `Processed_Days.__init__`: the empty
string.  It is spliced into the column list of the INSERT built by `insert`,
into the `MAX(...)` call of `get_latest_day`, and passed as the `index_col=`
argument of the pandas read in `get_full_table`. -/
def index_col : List Char := "".toList

/-- Syntactic validity of the column-list text of the statement
`INSERT INTO <schema>.processed_days (<colText>) VALUES ...` built by
`insert`, for the two texts the store can splice there: the empty
`self._index_col` gives `()` — an empty column list, a syntax error in every
SQL dialect, whose execution raises `SQLAlchemyError` — while a proper
column name such as the primary key `day` is valid. -/
def insertStmtOk (colText : List Char) : Bool :=
  !colText.isEmpty

/-- `Processed_Days.insert(day, end_date)` with the spliced column text
`colText` made explicit: checks the engine, materializes the date range
(never `None` for date inputs), and executes the single multi-row
`INSERT INTO <schema>.processed_days (<colText>) VALUES ... ON CONFLICT DO
NOTHING;`.  When the statement is malformed (`insertStmtOk` false) the raised
`SQLAlchemyError` is caught, `False` is returned and the table is unchanged;
when it is well-formed, the ON CONFLICT DO NOTHING execution inserts each
fresh date, skips conflicting ones without error, and `True` is returned.
Result: (new table state, returned boolean). -/
def insertWith (colText : List Char) (engineOk : Bool) (tbl : List Nat)
    (day : Nat) (end_date : Option Nat) : List Nat × Bool :=
  if engineOk then
    if insertStmtOk colText then
      (execInsert tbl (get_date_range day end_date), true)
    else (tbl, false)
  else (tbl, false)

/-- `Processed_Days.insert(day, end_date)` as the source runs it: the
column text spliced into the statement is `self._index_col`, the empty
string. -/
def insert (engineOk : Bool) (tbl : List Nat) (day : Nat) (end_date : Option Nat) :
    List Nat × Bool :=
  insertWith index_col engineOk tbl day end_date

/-- The database as `Processed_Days.get_latest_day` sees it: either the
connection itself fails (`SQLAlchemyError` before the statement is judged)
or the table holds a list of stored days against which the statement is
executed. -/
inductive DBView where
  | dbError
  | store (rows : List Nat)

/-- `Processed_Days.get_latest_day` with the spliced column text made
explicit: the statement is `SELECT MAX(<colText>)FROM <schema>.<table>;`.
An empty `colText` makes it `SELECT MAX()FROM ...` — `MAX()` with no
argument is a SQL syntax error — so execution raises `SQLAlchemyError`,
caught to `return None`.  With a proper column name, success returns
`value.first()[0]`: SQL `NULL` (Python `None`) on an empty table and the
maximum stored day otherwise.  (`conn.execute` never returns `None`, so the
source's `value is not None` test is always true on the success path.) -/
def get_latest_day_with (colText : List Char) : DBView → Option Nat
  | .dbError => none
  | .store rows => if colText.isEmpty then none else rows.max?

/-- `Processed_Days.get_latest_day` as the source runs it: the column text
is `self._index_col`, the empty string, so the built statement is the
malformed `SELECT MAX()FROM ...`. -/
def get_latest_day : DBView → Option Nat :=
  get_latest_day_with index_col

end Processed_Days

/-! ### `Table.get_full_table` (src/src/tables/table.py) -/

namespace Table

/-- A loaded data frame: the column labels produced by the read, plus the row
payload, carried along so that the theorems can state that the frame is
returned untouched (not truncated or coerced). -/
structure DF where
  cols : List (List Char)
  rows : List (List Int)
deriving DecidableEq

/-- The Python value stored in `self._expected_cols` by a concrete store:
`Flagged_Data` assigns a `set`, `Processed_Days` assigns a plain `list`. -/
inductive PyCols where
  | pyList (l : List (List Char))
  | pySet (s : Finset (List Char))

/-- Python's `set(list(df)) != self._expected_cols`.  When `_expected_cols`
is a `set`, this is set inequality; when it is a `list`, Python's `==`
between a `set` and a `list` is always `False` (so `!=` is always `True`),
whatever the elements are. -/
def colsMismatch (cols : List (List Char)) : PyCols → Bool
  | .pyList _ => true
  | .pySet s => decide (cols.toFinset ≠ s)

/-- Outcome of `pandas.read_sql` in `get_full_table`: it raises
`SQLAlchemyError` or `ValueError` (both caught), or yields a frame. -/
inductive ReadOutcome where
  | sqlError
  | valueError
  | ok (df : DF)

/-- `Table.get_full_table` at `index_col=None` (the value `Flagged_Data`
assigns, under which `pandas.read_sql` performs no `set_index` step):
`None` when the engine is `None`; `None` when the read raises (either
caught exception); `None` when `set(list(df)) != self._expected_cols`;
otherwise the frame itself.  The general function, with the `index_col`
handling made explicit, is `get_full_table_ix` below; the two agree on
`index_col=None` by `get_full_table_ix_pyNone`. -/
def get_full_table (engineOk : Bool) (expected : PyCols) (read : ReadOutcome) :
    Option DF :=
  if engineOk then
    match read with
    | .sqlError => none
    | .valueError => none
    | .ok df => if colsMismatch df.cols expected then none else some df
  else none

/-- The `_expected_cols` value assigned by `Processed_Days.__init__`: a Python
`list` (not a `set`) of the two column names. -/
def processed_days_expected : PyCols :=
  .pyList [("day".toList), ("row_id".toList)]

/-- The `index_col=` argument `get_full_table` passes to `pandas.read_sql`:
`Flagged_Data.__init__` assigns `None`, `Processed_Days.__init__` assigns
`self._index_col`, the empty string. -/
inductive IndexCol where
  | pyNone
  | name (col : List Char)

/-- `Processed_Days`' `index_col` argument: the empty string. -/
def processed_days_index : IndexCol := .name ("".toList)

/-- What `Table.get_full_table` does, as observed by its caller: return the
loaded frame, return the `None` sentinel, or let an exception escape the
function. -/
inductive ReadResult where
  | frame (df : DF)
  | noneSentinel
  | raisesKeyError
deriving DecidableEq

/-- `Table.get_full_table` with the `index_col` handling of
`pandas.read_sql` made explicit.  On a successful SQL read, pandas applies
`set_index(index_col)` when `index_col` is not `None`: the named column is
moved out of the column list when present (its values become the frame's
index), and a `KeyError` is raised otherwise.  `KeyError` is neither of the
caught exception types (`SQLAlchemyError`, `ValueError`), so it escapes
`get_full_table` uncaught, before the
`set(list(df)) != self._expected_cols` validation is reached. -/
def get_full_table_ix (engineOk : Bool) (indexCol : IndexCol)
    (expected : PyCols) (read : ReadOutcome) : ReadResult :=
  if engineOk then
    match read with
    | .sqlError => .noneSentinel
    | .valueError => .noneSentinel
    | .ok df =>
      match indexCol with
      | .pyNone =>
        if colsMismatch df.cols expected then .noneSentinel else .frame df
      | .name col =>
        if col ∈ df.cols then
          if colsMismatch (df.cols.erase col) expected then .noneSentinel
          else .frame ⟨df.cols.erase col, df.rows⟩
        else .raisesKeyError
  else .noneSentinel

end Table

/-! ### `ArgInterface` (src/pipeline/src/interface/ArgInterface.py) -/

namespace ArgInterface

/-- Python `str.startswith(pat)` on strings modelled as char lists. -/
def startsWith : List Char → List Char → Bool
  | _, [] => true
  | [], _ :: _ => false
  | c :: s, p :: ps => c == p && startsWith s ps

/-- `ArgInterface._is_present(args, short, long)`:
`any(s.startswith(long) for s in args)` when `short is None`, otherwise
`any(s.startswith(short) or s.startswith(long) for s in args)`. -/
def is_present (args : List (List Char)) (short : Option (List Char))
    (long : List Char) : Bool :=
  match short with
  | none => args.any (fun s => startsWith s long)
  | some sh => args.any (fun s => startsWith s sh || startsWith s long)

/-- Pre-scan `daily = self._is_present(args, None, "--daily")`. -/
def preDaily (args : List (List Char)) : Bool :=
  is_present args none ("--daily".toList)

/-- Pre-scan `query = self._is_present(args, "-s", "--select")`. -/
def preQuery (args : List (List Char)) : Bool :=
  is_present args (some ("-s".toList)) ("--select".toList)

/-- Pre-scan `flag = self._is_present(args, "-f", "--flag")`. -/
def preFlag (args : List (List Char)) : Bool :=
  is_present args (some ("-f".toList)) ("--flag".toList)

/-- Pre-scan `row = self._is_present(args, "-r", "--row_id")` — note the long
text tested is `--row_id`, while the option declared on the parser is
`--row`. -/
def preRow (args : List (List Char)) : Bool :=
  is_present args (some ("-r".toList)) ("--row_id".toList)

/-- `required=` expression of the `--daily` argument:
`self._is_present(args, None, "--daily") and len(args) == 1`. -/
def req_daily (args : List (List Char)) : Bool :=
  preDaily args && args.length == 1

/-- `required=` expression of `--date-start`. -/
def req_dateStart (args : List (List Char)) : Bool :=
  !preDaily args && !preQuery args && is_present args none ("--date-end".toList)

/-- `required=` expression of `--date-end`. -/
def req_dateEnd (args : List (List Char)) : Bool :=
  !preDaily args && !preQuery args && is_present args none ("--date-start".toList)

/-- `required=` expression of `--select`: `flag or row`. -/
def req_select (args : List (List Char)) : Bool :=
  preFlag args || preRow args

/-- `required=` expression of `--flag`: `not daily and query and not row`. -/
def req_flag (args : List (List Char)) : Bool :=
  !preDaily args && preQuery args && !preRow args

/-- `required=` expression of `--row`: `not daily and query and not flag`. -/
def req_row (args : List (List Char)) : Bool :=
  !preDaily args && preQuery args && !preFlag args

/-- `required=` expression of `--year`: `not daily and query and row and not flag`. -/
def req_year (args : List (List Char)) : Bool :=
  !preDaily args && preQuery args && preRow args && !preFlag args

/-- `required=` expression of `--service-period` (same as `--year`). -/
def req_period (args : List (List Char)) : Bool :=
  !preDaily args && preQuery args && preRow args && !preFlag args

/-! #### Typed argument parsers -/

/-- The six ASCII whitespace characters stripped by Python's `int(str)`. -/
def isPySpace (c : Char) : Bool :=
  c == ' ' || c == '\t' || c == '\n' || c == '\r' || c == '\x0b' || c == '\x0c'

/-- Strip leading and trailing whitespace, as `int(str)` does. -/
def stripWs (s : List Char) : List Char :=
  ((s.dropWhile isPySpace).reverse.dropWhile isPySpace).reverse

/-- Continuation of the decimal-digit grammar of Python's `int(str)`:
after a first digit, each further digit may be preceded by a single
underscore (`digit (("_")? digit)*`); anything else is a parse failure. -/
def digitsCore (acc : Nat) : List Char → Option Nat
  | [] => some acc
  | '_' :: c :: rest =>
    if c.isDigit then digitsCore (acc * 10 + (c.toNat - 48)) rest else none
  | c :: rest =>
    if c.isDigit then digitsCore (acc * 10 + (c.toNat - 48)) rest else none

/-- The digit part of Python's `int(str)`: at least one digit, underscores
only between digits. -/
def parseDigits : List Char → Option Nat
  | [] => none
  | c :: rest => if c.isDigit then digitsCore (c.toNat - 48) rest else none

/-- Python's `int(str)` for ASCII input: optional surrounding whitespace, an
optional sign, then a decimal digit sequence with optional single underscores
between digits; `none` models the `ValueError` raised on any other shape. -/
def pyInt (s : List Char) : Option Int :=
  match stripWs s with
  | '+' :: rest => (parseDigits rest).map Int.ofNat
  | '-' :: rest => (parseDigits rest).map (fun n => -(n : Int))
  | rest => (parseDigits rest).map Int.ofNat

/-- The `names` list of `_service_period` and the `names.index(arg) + 1`
lookup performed when the integer parse fails. -/
def spNameValue (arg : List Char) : Option Nat :=
  if arg = ("first".toList) then some 1
  else if arg = ("second".toList) then some 2
  else if arg = ("third".toList) then some 3
  else none

/-- `ArgInterface._service_period(arg)`: try `int(arg)`; an integer in
`[1, 2, 3]` is returned as is, any other outcome of the integer path
(non-integer string, or an integer outside `[1,2,3]`, whose `raise ValueError`
is caught by the inner `except`) falls back to the exact-name lookup;
`none` models the final `ArgumentTypeError`. -/
def service_period (arg : List Char) : Option Nat :=
  match pyInt arg with
  | some p => if p = 1 ∨ p = 2 ∨ p = 3 then some p.toNat else spNameValue arg
  | none => spNameValue arg

/-- Digit-list to number, for the date/year validators. -/
def natOfDigits (l : List Char) : Nat :=
  l.foldl (fun a c => a * 10 + (c.toNat - 48)) 0

/-- Length of month `m` of year `y` in the proleptic Gregorian calendar. -/
def daysInMonth (y m : Nat) : Nat :=
  if m = 2 then (if (y % 4 = 0 && y % 100 != 0) || y % 400 = 0 then 29 else 28)
  else if m = 4 ∨ m = 6 ∨ m = 9 ∨ m = 11 then 30 else 31

/-- Modelled from the library behavior of
`datetime.strptime(arg, "%Y-%m-%d")` used by `_service_date`: `%Y` matches
exactly four digits, `%m` and `%d` match one or two digits, and the
constructed date must be a real calendar date (year at least 1, month 1–12,
day within the month).  Returns whether parsing succeeds. -/
def service_date_ok (v : List Char) : Bool :=
  match v.splitOn '-' with
  | [ys, ms, ds] =>
    ys.length == 4 && ys.all Char.isDigit &&
    decide (0 < ms.length) && ms.length ≤ 2 && ms.all Char.isDigit &&
    decide (0 < ds.length) && ds.length ≤ 2 && ds.all Char.isDigit &&
    (let y := natOfDigits ys
     let m := natOfDigits ms
     let d := natOfDigits ds
     decide (1 ≤ y) && decide (1 ≤ m) && m ≤ 12 && decide (1 ≤ d) &&
       d ≤ daysInMonth y m)
  | _ => false

/-- Modelled from the library behavior of `datetime.strptime(arg, "%Y")`
used by `_service_year`: exactly four digits making a year of at least 1. -/
def service_year_ok (v : List Char) : Bool :=
  v.length == 4 && v.all Char.isDigit && decide (1 ≤ natOfDigits v)

/-- `ArgInterface._limit(arg)`: `int(arg)` must parse and be positive. -/
def limit_ok (v : List Char) : Bool :=
  match pyInt v with
  | some n => decide (0 < n)
  | none => false

/-! #### The declared parser and `parse_args` -/

/-- The nine optional arguments added in `_create_parser`, in declaration
order. -/
inductive Opt where
  | daily | dateStart | dateEnd | select | flag | limit | row | year | period
deriving DecidableEq

/-- Long option string of each argument, as declared. -/
def longName : Opt → List Char
  | .daily => "--daily".toList
  | .dateStart => "--date-start".toList
  | .dateEnd => "--date-end".toList
  | .select => "--select".toList
  | .flag => "--flag".toList
  | .limit => "--limit".toList
  | .row => "--row".toList
  | .year => "--year".toList
  | .period => "--service-period".toList

/-- Short option string, where declared. -/
def shortName : Opt → Option (List Char)
  | .select => some ("-s".toList)
  | .flag => some ("-f".toList)
  | .limit => some ("-l".toList)
  | .row => some ("-r".toList)
  | .year => some ("-y".toList)
  | .period => some ("-p".toList)
  | _ => none

/-- Whether the option consumes a value (`--daily` and `--select` are
`action="store_true"`, everything else takes one value). -/
def takesValue : Opt → Bool
  | .daily => false
  | .select => false
  | _ => true

/-- The `type=` callable of each value-taking option, as success predicate:
a `False` models the `ArgumentTypeError`/`ValueError` that makes `parse_args`
exit with status 2.  `--flag` is an untyped string. -/
def valueOk : Opt → List Char → Bool
  | .dateStart, v => service_date_ok v
  | .dateEnd, v => service_date_ok v
  | .flag, _ => true
  | .limit, v => limit_ok v
  | .row, v => (pyInt v).isSome
  | .year, v => service_year_ok v
  | .period, v => (service_period v).isSome
  | .daily, _ => true
  | .select, _ => true

/-- All declared options. -/
def allOpts : List Opt :=
  [.daily, .dateStart, .dateEnd, .select, .flag, .limit, .row, .year, .period]

/-- The `Namespace` produced by `parse_args`: `store_true` options default to
`False`, value options to `None`.  Typed values are stored parsed (`--row`
and `--limit` as integers, `--service-period` normalized to 1/2/3); string-ish
values (`--flag`, the dates, `--year`) are stored as the validated text. -/
structure NS where
  daily : Bool := false
  select : Bool := false
  flag : Option (List Char) := none
  dateStart : Option (List Char) := none
  dateEnd : Option (List Char) := none
  limit : Option Int := none
  row : Option Int := none
  year : Option (List Char) := none
  period : Option Nat := none
deriving DecidableEq

/-- Record a parsed value on the namespace. -/
def setOpt (ns : NS) : Opt → List Char → NS
  | .daily, _ => { ns with daily := true }
  | .select, _ => { ns with select := true }
  | .flag, v => { ns with flag := some v }
  | .dateStart, v => { ns with dateStart := some v }
  | .dateEnd, v => { ns with dateEnd := some v }
  | .limit, v => { ns with limit := pyInt v }
  | .row, v => { ns with row := pyInt v }
  | .year, v => { ns with year := some v }
  | .period, v => { ns with period := service_period v }

/-- Record a `store_true` option on the namespace. -/
def setTrue (ns : NS) : Opt → NS
  | .daily => { ns with daily := true }
  | .select => { ns with select := true }
  | o => setOpt ns o []

/-- Modelled from the library behavior of `argparse` token recognition for
this option table, restricted to the exact forms the interface is invoked
with: a token is `--long`, `--long=value`, `-x`, or `-xvalue` (attached short
value, value-taking options only).  Prefix abbreviation of long options and
clustering of short flags are not modelled; an unrecognized token makes
`parse_args` exit with status 2 either way. -/
def matchTok (tok : List Char) : Option (Opt × Option (List Char)) :=
  allOpts.findSome? fun o =>
    if tok = longName o then some (o, none)
    else if startsWith tok (longName o ++ ['=']) then
      some (o, some (tok.drop ((longName o).length + 1)))
    else
      match shortName o with
      | some sh =>
        if tok = sh then some (o, none)
        else if startsWith tok sh && takesValue o then
          some (o, some (tok.drop sh.length))
        else none
      | none => none

/-- Modelled from the library behavior of `argparse.parse_args` over the raw
tokens: recognized options are applied left to right (a separate following
token supplies the value when none is attached, unless it looks like an
option), typed values are validated, and any failure — unknown token,
explicit value on a `store_true` option, missing or ill-typed value — is the
`SystemExit(2)` path, modelled as `none`. -/
def parseLoop : List (List Char) → NS → Option NS
  | [], ns => some ns
  | tok :: rest, ns =>
    match matchTok tok with
    | none => none
    | some (o, some v) =>
      if takesValue o then
        if valueOk o v then parseLoop rest (setOpt ns o v) else none
      else none
    | some (o, none) =>
      if takesValue o then
        match rest with
        | [] => none
        | v :: rest2 =>
          if startsWith v ['-'] then none
          else if valueOk o v then parseLoop rest2 (setOpt ns o v) else none
      else parseLoop rest (setTrue ns o)

/-- Whether an option was supplied, as `argparse` checks required options
after parsing. -/
def seen (ns : NS) : Opt → Bool
  | .daily => ns.daily
  | .select => ns.select
  | .flag => ns.flag.isSome
  | .dateStart => ns.dateStart.isSome
  | .dateEnd => ns.dateEnd.isSome
  | .limit => ns.limit.isSome
  | .row => ns.row.isSome
  | .year => ns.year.isSome
  | .period => ns.period.isSome

/-- The `required=` value computed for each option in `_create_parser` from
the raw argument list (the pre-scan). -/
def required (args : List (List Char)) : Opt → Bool
  | .daily => req_daily args
  | .dateStart => req_dateStart args
  | .dateEnd => req_dateEnd args
  | .select => req_select args
  | .flag => req_flag args
  | .limit => false
  | .row => req_row args
  | .year => req_year args
  | .period => req_period args

/-- `ArgInterface._parse_cl_args(args)`: build the parser (computing the
conditional `required=` values from the raw list) and run `parse_args`;
`none` is the `SystemExit(2)` outcome, raised by `argparse` on unknown
tokens, type failures, or a required option that was not supplied. -/
def parse_cl_args (args : List (List Char)) : Option NS :=
  match parseLoop args {} with
  | none => none
  | some ns =>
    if allOpts.all (fun o => !required args o || seen ns o) then some ns
    else none

/-- Python truthiness of an optional string (`None` and `""` are falsy). -/
def truthyStr : Option (List Char) → Bool
  | none => false
  | some s => !s.isEmpty

/-- Python truthiness of an optional integer (`None` and `0` are falsy). -/
def truthyInt : Option Int → Bool
  | none => false
  | some n => n != 0

/-- Observable outcome of `ArgInterface.query_with_args`. -/
inductive Dispatch where
  | sysExit2
  | resultNone
  | processNextDay
  | flagQuery (flagId : Int) (lim : Int)
  | rowQuery (row : Int) (year : Option (List Char)) (period : Option Nat)
  | rangeQuery (ds de : Option (List Char))
deriving DecidableEq

/-- `_handle_flag_query` together with the surrounding `if args.select:`
branch structure of `query_with_args`, after the flag name (if any) has been
replaced by the looked-up id.  `flagId` is `args.flag` at that point. -/
def afterFlag (ns : NS) (flagId : Option Int) : Dispatch :=
  if ns.select then
    if truthyInt flagId then
      .flagQuery (flagId.getD 0)
        (if truthyInt ns.limit then (ns.limit.getD 0) else 100)
    else if truthyInt ns.row then .rowQuery (ns.row.getD 0) ns.year ns.period
    else .resultNone
  else if truthyStr ns.dateStart then .rangeQuery ns.dateStart ns.dateEnd
  else if ns.daily then .processNextDay
  else .resultNone

/-- `ArgInterface.query_with_args(client, args)`: parse (exit 2 on failure);
if `args.flag` is truthy, resolve the name via the client's
`lookup_flag_id`, returning `None` when unresolved; then dispatch on
`args.select` / `args.date_start` / `args.daily`, with a final
"Insufficient arguments" `None`. -/
def query_with_args (lookup : List Char → Option Int)
    (args : List (List Char)) : Dispatch :=
  match parse_cl_args args with
  | none => .sysExit2
  | some ns =>
    if truthyStr ns.flag then
      match lookup (ns.flag.getD []) with
      | none => .resultNone
      | some fid => afterFlag ns (some fid)
    else afterFlag ns none

end ArgInterface

/-! ## Helper lemmas -/

namespace Processed_Days

theorem dateLoopAux_eq_range' (n c : Nat) : dateLoopAux n c = List.range' c n := by
  induction n generalizing c with
  | zero => rfl
  | succ n ih => simp [dateLoopAux, List.range'_succ, ih]

theorem dateLoop_eq_range' (c e : Nat) : dateLoop c e = List.range' c (e - c) := by
  rw [dateLoop, dateLoopAux_eq_range']

/-- For strictly increasing bounds, `_get_date_range` is the arithmetic
progression of step 1 from `day` of length `e - d + 1`. -/
theorem get_date_range_strict (d e : Nat) (h : d < e) :
    get_date_range d (some e) = List.range' d (e - d + 1) := by
  rw [get_date_range, dateLoop_eq_range']
  rw [show e - d + 1 = (e - d) + 1 from rfl, List.range'_succ]
  have h1 : e - d = (e - (d + 1)) + 1 := by omega
  rw [h1, List.range'_1_concat]
  have h2 : d + 1 + (e - (d + 1)) = e := by omega
  rw [h2]

/-- With `end_date` equal to `day`, the loop body never runs but the final
`dates.append(end_date)` still does: the date comes out twice. -/
theorem get_date_range_self (d : Nat) : get_date_range d (some d) = [d, d] := by
  rw [get_date_range, dateLoop, show d - (d + 1) = 0 by omega]
  rfl

/-- With `end_date` before `day`, the loop body never runs but the final
`dates.append(end_date)` still does: the result is `[day, end_date]`. -/
theorem get_date_range_rev (d e : Nat) (h : e < d) :
    get_date_range d (some e) = [d, e] := by
  rw [get_date_range, dateLoop, show e - (d + 1) = 0 by omega]
  rfl

theorem insertRow_toFinset (t : List Nat) (d : Nat) :
    (insertRow t d).toFinset = t.toFinset ∪ {d} := by
  by_cases h : d ∈ t
  · rw [insertRow, if_pos h]
    exact (Finset.union_eq_left.mpr
      (Finset.singleton_subset_iff.mpr (List.mem_toFinset.mpr h))).symm
  · rw [insertRow, if_neg h]
    simp [List.toFinset_append]

theorem insertRow_nodup (t : List Nat) (d : Nat) (h : t.Nodup) :
    (insertRow t d).Nodup := by
  by_cases hd : d ∈ t
  · rwa [insertRow, if_pos hd]
  · rw [insertRow, if_neg hd]
    refine h.append (List.nodup_singleton d) ?_
    intro x hx hmem
    rw [List.mem_singleton] at hmem
    exact hd (hmem ▸ hx)

theorem execInsert_toFinset (ds : List Nat) (t : List Nat) :
    (execInsert t ds).toFinset = t.toFinset ∪ ds.toFinset := by
  induction ds generalizing t with
  | nil => simp [execInsert]
  | cons x xs ih =>
    rw [execInsert, List.foldl_cons]
    have hx := ih (insertRow t x)
    rw [execInsert] at hx
    rw [hx, insertRow_toFinset]
    ext y
    simp
    tauto

theorem execInsert_nodup (ds : List Nat) (t : List Nat) (h : t.Nodup) :
    (execInsert t ds).Nodup := by
  induction ds generalizing t with
  | nil => simpa [execInsert] using h
  | cons x xs ih =>
    rw [execInsert, List.foldl_cons]
    exact ih _ (insertRow_nodup _ _ h)

/-- The set of dates materialized for `day ≤ end_date` is the closed
interval, even at the duplicate-producing boundary `day = end_date`. -/
theorem get_date_range_toFinset (d e : Nat) (h : d ≤ e) :
    (get_date_range d (some e)).toFinset = Finset.Icc d e := by
  rcases Nat.lt_or_ge d e with hlt | hge
  · rw [get_date_range_strict d e hlt]
    ext x
    simp [List.mem_range'_1, Finset.mem_Icc]
    omega
  · have hde : d = e := Nat.le_antisymm h hge
    subst hde
    rw [get_date_range_self]
    ext x
    simp [Finset.mem_Icc]

end Processed_Days

namespace Table

/-- At `index_col=None` the explicit-`index_col` model coincides with
`get_full_table` (frame for `some`, sentinel for `none`). -/
theorem get_full_table_ix_pyNone (engineOk : Bool) (expected : PyCols)
    (read : ReadOutcome) :
    get_full_table_ix engineOk IndexCol.pyNone expected read
      = match get_full_table engineOk expected read with
        | some df => ReadResult.frame df
        | none => ReadResult.noneSentinel := by
  cases engineOk with
  | false => cases read <;> rfl
  | true =>
    cases read with
    | sqlError => rfl
    | valueError => rfl
    | ok df =>
      by_cases h : colsMismatch df.cols expected = true <;>
        simp [get_full_table_ix, get_full_table, h]

end Table

/-! ## Claim theorems

Concrete dates below are Python ordinals: 737425 is 2020-01-01,
737426 is 2020-01-02, and so on. -/

/-- Claim C1, counterexample: at the boundary `endDay = day` (here both
2020-01-01), `_get_date_range` does not return the single date once — the
unconditional trailing `dates.append(end_date)` makes it return the date
twice. -/
theorem c1_dateRange_equal_bounds_duplicates :
    Processed_Days.get_date_range 737425 (some 737425) = [737425, 737425] ∧
    (Processed_Days.get_date_range 737425 (some 737425)).length ≠
      737425 - 737425 + 1 := by
  decide

/-- Claim C1 (amended): for valid dates with `endDay` strictly after `day`,
`_get_date_range(day, endDay)` returns exactly `(endDay - day) + 1`
consecutive calendar dates in increasing order with no gaps and no
duplicates (it equals the step-1 progression from `day`); the boundary
`endDay = day` instead yields the date twice, as the counterexample
records. -/
theorem c1_dateRange_strict_consecutive (d e : Nat) (h : d < e) :
    Processed_Days.get_date_range d (some e) = List.range' d (e - d + 1) ∧
    (Processed_Days.get_date_range d (some e)).length = e - d + 1 ∧
    (Processed_Days.get_date_range d (some e)).Nodup := by
  refine ⟨Processed_Days.get_date_range_strict d e h, ?_, ?_⟩
  · rw [Processed_Days.get_date_range_strict d e h, List.length_range']
  · rw [Processed_Days.get_date_range_strict d e h]
    exact List.nodup_range' d (e - d + 1)

/-- Witness for C1 at `day` 2020-01-01 and `endDay` 2020-01-03. -/
theorem c1_dateRange_strict_consecutive_witness :
    Processed_Days.get_date_range 737425 (some 737427)
        = List.range' 737425 (737427 - 737425 + 1) ∧
    (Processed_Days.get_date_range 737425 (some 737427)).length
        = 737427 - 737425 + 1 ∧
    (Processed_Days.get_date_range 737425 (some 737427)).Nodup :=
  c1_dateRange_strict_consecutive 737425 737427 (by decide)

/-- Claim C2, counterexample: with `day` 2020-01-02 and `endDay` 2020-01-01,
`_get_date_range` returns the two dates `[day, endDay]`, not the single date
`day`: the trailing `dates.append(end_date)` runs even when the loop body
never does. -/
theorem c2_dateRange_reversed_two_dates :
    Processed_Days.get_date_range 737426 (some 737425) = [737426, 737425] ∧
    Processed_Days.get_date_range 737426 (some 737425) ≠ [737426] := by
  decide

/-- Claim C2 (amended): for `endDay` strictly before `day`,
`_get_date_range(day, endDay)` returns exactly the two-element sequence
`[day, endDay]` — no error is raised and no intermediate date is visited
(no reverse iteration), but the sequence is not the singleton `[day]`. -/
theorem c2_dateRange_reversed_endpoints (d e : Nat) (h : e < d) :
    Processed_Days.get_date_range d (some e) = [d, e] :=
  Processed_Days.get_date_range_rev d e h

/-- Witness for C2 at `day` 2020-01-02 and `endDay` 2020-01-01. -/
theorem c2_dateRange_reversed_endpoints_witness :
    Processed_Days.get_date_range 737426 (some 737425) = [737426, 737425] :=
  c2_dateRange_reversed_endpoints 737426 737425 (by decide)

/-- Claim C5, counterexample: `get_latest_day` returns `None` on a
non-empty store (here holding 2020-01-01 and 2020-01-06), on the empty
store and on a connection failure alike.  The statement it executes is
`SELECT MAX()FROM ...` — the spliced `self._index_col` is the empty
string — a syntax error, so every execution takes the
`except SQLAlchemyError` branch; the maximum stored date is never returned
and no two of the three claimed outcomes are distinguishable. -/
theorem c5_latest_day_all_outcomes_none :
    Processed_Days.get_latest_day
        (Processed_Days.DBView.store [737425, 737430]) = none ∧
    Processed_Days.get_latest_day (Processed_Days.DBView.store []) = none ∧
    Processed_Days.get_latest_day Processed_Days.DBView.dbError = none := by
  decide

/-- Claim C5 (amended): `get_latest_day` returns `None` in every case —
the malformed `SELECT MAX()FROM` statement (empty `_index_col`) raises
`SQLAlchemyError` on every execution, and a connection failure also yields
`None` — so the maximum stored date is never returned and none of the three
claimed outcomes can be told apart from the returned value. -/
theorem c5_latest_day_always_none (db : Processed_Days.DBView) :
    Processed_Days.get_latest_day db = none := by
  cases db <;> rfl

/-- Claim C7, evaluation at the failing input: the INSERT statement built
by `insert` splices the empty `self._index_col` as its column list —
`INSERT INTO <schema>.processed_days () VALUES ...`, a SQL syntax error —
so inserting one valid range and then an overlapping one raises-and-catches
`SQLAlchemyError` both times: both calls return `False` and the table is
unchanged and stores nothing (first two conjuncts).  The remaining
conjuncts state the behavior the claim, the source's own comments and the
`ON CONFLICT DO NOTHING` clause intend, with the primary-key column `day`
as the column text: both calls return `True` and the stored set becomes the
initial set united with the union of the two closed ranges, duplicate-free. -/
theorem c7_insert_insert_overlap_union (tbl : List Nat) (d1 e1 d2 e2 : Nat)
    (hnd : tbl.Nodup) (h1 : d1 ≤ e1) (h2 : d2 ≤ e2)
    (hov1 : d2 ≤ e1) (hov2 : d1 ≤ e2) :
    Processed_Days.insert true tbl d1 (some e1) = (tbl, false) ∧
    Processed_Days.insert true
      (Processed_Days.insert true tbl d1 (some e1)).1 d2 (some e2)
      = (tbl, false) ∧
    (Processed_Days.insertWith ("day".toList) true tbl d1 (some e1)).2 = true ∧
    (Processed_Days.insertWith ("day".toList) true
      (Processed_Days.insertWith ("day".toList) true tbl d1 (some e1)).1
      d2 (some e2)).2 = true ∧
    (Processed_Days.insertWith ("day".toList) true
        (Processed_Days.insertWith ("day".toList) true tbl d1 (some e1)).1
        d2 (some e2)).1.toFinset
      = tbl.toFinset ∪ (Finset.Icc d1 e1 ∪ Finset.Icc d2 e2) ∧
    (Processed_Days.insertWith ("day".toList) true
      (Processed_Days.insertWith ("day".toList) true tbl d1 (some e1)).1
      d2 (some e2)).1.Nodup := by
  refine ⟨rfl, rfl, rfl, rfl, ?_, ?_⟩
  · show (Processed_Days.execInsert
        (Processed_Days.execInsert tbl (Processed_Days.get_date_range d1 (some e1)))
        (Processed_Days.get_date_range d2 (some e2))).toFinset = _
    rw [Processed_Days.execInsert_toFinset, Processed_Days.execInsert_toFinset,
      Processed_Days.get_date_range_toFinset d1 e1 h1,
      Processed_Days.get_date_range_toFinset d2 e2 h2, Finset.union_assoc]
  · exact Processed_Days.execInsert_nodup _ _
      (Processed_Days.execInsert_nodup _ _ hnd)

/-- Witness for C7: empty table, ranges 2020-01-01..03 and 2020-01-02..05
(overlapping). -/
theorem c7_insert_insert_overlap_union_witness :
    Processed_Days.insert true [] 737425 (some 737427) = ([], false) ∧
    Processed_Days.insert true
      (Processed_Days.insert true [] 737425 (some 737427)).1
      737426 (some 737429) = ([], false) ∧
    (Processed_Days.insertWith ("day".toList) true [] 737425 (some 737427)).2
        = true ∧
    (Processed_Days.insertWith ("day".toList) true
      (Processed_Days.insertWith ("day".toList) true [] 737425 (some 737427)).1
      737426 (some 737429)).2 = true ∧
    (Processed_Days.insertWith ("day".toList) true
        (Processed_Days.insertWith ("day".toList) true [] 737425 (some 737427)).1
        737426 (some 737429)).1.toFinset
      = List.toFinset [] ∪ (Finset.Icc 737425 737427 ∪ Finset.Icc 737426 737429) ∧
    (Processed_Days.insertWith ("day".toList) true
      (Processed_Days.insertWith ("day".toList) true [] 737425 (some 737427)).1
      737426 (some 737429)).1.Nodup :=
  c7_insert_insert_overlap_union [] 737425 737427 737426 737429
    (by decide) (by decide) (by decide) (by decide) (by decide)

/-- Claim C3: `--select --flag=X` (no `--row`) parses successfully and the
computed `required=` values for `--year` and `--service-period` are both
false, while `--select --row=5` without `--year` fails `parse_args` and
`query_with_args` ends in the `SystemExit(2)` outcome, whatever the client's
flag-lookup function does. -/
theorem c3_select_flag_vs_select_row :
    (ArgInterface.parse_cl_args
        [("--select".toList), ("--flag=X".toList)]).isSome = true ∧
    ArgInterface.req_year [("--select".toList), ("--flag=X".toList)] = false ∧
    ArgInterface.req_period [("--select".toList), ("--flag=X".toList)] = false ∧
    ArgInterface.parse_cl_args [("--select".toList), ("--row=5".toList)] = none ∧
    (∀ lookup : List Char → Option Int,
      ArgInterface.query_with_args lookup
          [("--select".toList), ("--row=5".toList)]
        = ArgInterface.Dispatch.sysExit2) := by
  refine ⟨by decide, by decide, by decide, by decide, fun lookup => ?_⟩
  have h : ArgInterface.parse_cl_args
      [("--select".toList), ("--row=5".toList)] = none := by decide
  simp only [ArgInterface.query_with_args]
  rw [h]

/-- Claim C4, evaluation at the failing input: `--daily --select` parses
successfully (the `required=daily and len(args)==1` expression enforces
nothing) and `query_with_args` takes the `--select` branch, returning `None`
with no exit status 2 and without invoking `process_next_day`; `--daily`
alone parses and does invoke the client's process-next-day operation. -/
theorem c4_daily_not_exclusive :
    (ArgInterface.parse_cl_args
        [("--daily".toList), ("--select".toList)]).isSome = true ∧
    (∀ lookup : List Char → Option Int,
      ArgInterface.query_with_args lookup
          [("--daily".toList), ("--select".toList)]
        = ArgInterface.Dispatch.resultNone) ∧
    (∀ lookup : List Char → Option Int,
      ArgInterface.query_with_args lookup [("--daily".toList)]
        = ArgInterface.Dispatch.processNextDay) := by
  refine ⟨by decide, fun lookup => ?_, fun lookup => ?_⟩
  · have h : ArgInterface.parse_cl_args [("--daily".toList), ("--select".toList)]
        = some { daily := true, select := true } := by decide
    simp only [ArgInterface.query_with_args]
    rw [h]
    rfl
  · have h : ArgInterface.parse_cl_args [("--daily".toList)]
        = some { daily := true } := by decide
    simp only [ArgInterface.query_with_args]
    rw [h]
    rfl

/-- Claim C6: a full-table read against a declared expected-column set
returns the loaded frame exactly when its column set equals the declared
set, and the `None` sentinel (not a raise, not a truncated or coerced
frame) on any mismatch, extra or missing column alike. -/
theorem c6_full_table_set_validation (df : Table.DF) (s : Finset (List Char)) :
    Table.get_full_table true (Table.PyCols.pySet s) (Table.ReadOutcome.ok df)
      = if df.cols.toFinset = s then some df else none := by
  by_cases h : df.cols.toFinset = s <;>
    simp [Table.get_full_table, Table.colsMismatch, h]

/-- Claim C8, counterexample: the input string `"01"` is none of `"1"`,
`"2"`, `"3"`, `"first"`, `"second"`, `"third"`, yet `_service_period`
accepts it (Python's `int("01")` is 1), so "every other input string raises"
is false as stated. -/
theorem c8_service_period_accepts_01 :
    ArgInterface.service_period ("01".toList) = some 1 ∧
    ("01".toList) ∉ [("1".toList), ("2".toList), ("3".toList),
      ("first".toList), ("second".toList), ("third".toList)] := by
  decide

/-- Claim C8 (amended): `_service_period` maps `"1"`, `"2"`, `"3"` and the
exact lowercase words `"first"`, `"second"`, `"third"` to 1, 2, 3, and
raises the typed-argument error for every other input string whose Python
integer parse does not itself yield 1, 2 or 3 (so `"4"`, `"fourth"` and
differently-cased words all fail, but integer spellings such as `"01"` are
also accepted). -/
theorem c8_service_period_amended (arg : List Char)
    (h1 : ArgInterface.pyInt arg ≠ some 1)
    (h2 : ArgInterface.pyInt arg ≠ some 2)
    (h3 : ArgInterface.pyInt arg ≠ some 3)
    (h4 : arg ≠ ("first".toList)) (h5 : arg ≠ ("second".toList))
    (h6 : arg ≠ ("third".toList)) :
    ArgInterface.service_period arg = none ∧
    ArgInterface.service_period ("1".toList) = some 1 ∧
    ArgInterface.service_period ("2".toList) = some 2 ∧
    ArgInterface.service_period ("3".toList) = some 3 ∧
    ArgInterface.service_period ("first".toList) = some 1 ∧
    ArgInterface.service_period ("second".toList) = some 2 ∧
    ArgInterface.service_period ("third".toList) = some 3 := by
  refine ⟨?_, by decide, by decide, by decide, by decide, by decide, by decide⟩
  have hname : ArgInterface.spNameValue arg = none := by
    rw [ArgInterface.spNameValue, if_neg h4, if_neg h5, if_neg h6]
  cases hp : ArgInterface.pyInt arg with
  | none => simp [ArgInterface.service_period, hp, hname]
  | some p =>
    have hcond : ¬(p = 1 ∨ p = 2 ∨ p = 3) := by
      rintro (rfl | rfl | rfl)
      · exact h1 hp
      · exact h2 hp
      · exact h3 hp
    simp [ArgInterface.service_period, hp, hcond, hname]

/-- Witness for C8 at the rejected input `"4"`. -/
theorem c8_service_period_amended_witness :
    ArgInterface.service_period ("4".toList) = none ∧
    ArgInterface.service_period ("1".toList) = some 1 ∧
    ArgInterface.service_period ("2".toList) = some 2 ∧
    ArgInterface.service_period ("3".toList) = some 3 ∧
    ArgInterface.service_period ("first".toList) = some 1 ∧
    ArgInterface.service_period ("second".toList) = some 2 ∧
    ArgInterface.service_period ("third".toList) = some 3 :=
  c8_service_period_amended ("4".toList) (by decide) (by decide) (by decide)
    (by decide) (by decide) (by decide)

/-- Claim C9, counterexample: a successful read of the processed-days
table whose columns are exactly `day`, `row_id` does not return the `None`
sentinel — `get_full_table` passes `index_col=""` (the empty
`self._index_col`) to `pandas.read_sql`, the empty string is not one of
the columns, and the resulting `KeyError` from `set_index` is not among
the caught exceptions, so the function raises instead of returning; the
set-vs-list comparison the claim reasons from is never reached. -/
theorem c9_read_keyerror_not_none :
    Table.get_full_table_ix true Table.processed_days_index
        Table.processed_days_expected
        (Table.ReadOutcome.ok ⟨[("day".toList), ("row_id".toList)], []⟩)
      = Table.ReadResult.raisesKeyError ∧
    Table.get_full_table_ix true Table.processed_days_index
        Table.processed_days_expected
        (Table.ReadOutcome.ok ⟨[("day".toList), ("row_id".toList)], []⟩)
      ≠ Table.ReadResult.noneSentinel := by
  decide

/-- Claim C9 (amended): a full-table read of the processed-days store never
yields a frame.  A successful read whose columns do not include an
empty-named column (no real SQL table has one — in particular columns
exactly `day`, `row_id`) raises the uncaught `KeyError` from
`set_index("")` before any column validation; every other path — engine
missing, read failure, or the unreachable empty-named-column case whose
set-vs-list comparison no list can pass — produces the `None` sentinel,
never the frame. -/
theorem c9_processed_days_read_broken (engineOk : Bool)
    (read : Table.ReadOutcome) (df df2 : Table.DF)
    (h : ("".toList) ∉ df.cols) :
    Table.get_full_table_ix true Table.processed_days_index
        Table.processed_days_expected (Table.ReadOutcome.ok df)
      = Table.ReadResult.raisesKeyError ∧
    Table.get_full_table_ix engineOk Table.processed_days_index
        Table.processed_days_expected read ≠ Table.ReadResult.frame df2 := by
  have h0 : ([] : List Char) ∉ df.cols := h
  constructor
  · simp [Table.get_full_table_ix, Table.processed_days_index, h0]
  · cases engineOk with
    | false => cases read <;> simp [Table.get_full_table_ix]
    | true =>
      cases read with
      | sqlError => simp [Table.get_full_table_ix]
      | valueError => simp [Table.get_full_table_ix]
      | ok df3 =>
        by_cases hmem : ([] : List Char) ∈ df3.cols <;>
          simp [Table.get_full_table_ix, Table.processed_days_index,
            Table.colsMismatch, Table.processed_days_expected, hmem]

/-- Witness for C9 on a frame whose columns are exactly `day`, `row_id`. -/
theorem c9_processed_days_read_broken_witness :
    Table.get_full_table_ix true Table.processed_days_index
        Table.processed_days_expected
        (Table.ReadOutcome.ok ⟨[("day".toList), ("row_id".toList)], []⟩)
      = Table.ReadResult.raisesKeyError ∧
    Table.get_full_table_ix true Table.processed_days_index
        Table.processed_days_expected
        (Table.ReadOutcome.ok ⟨[("day".toList), ("row_id".toList)], []⟩)
      ≠ Table.ReadResult.frame ⟨[("day".toList), ("row_id".toList)], []⟩ :=
  c9_processed_days_read_broken true
    (Table.ReadOutcome.ok ⟨[("day".toList), ("row_id".toList)], []⟩)
    ⟨[("day".toList), ("row_id".toList)], []⟩
    ⟨[("day".toList), ("row_id".toList)], []⟩ (by decide)

/-- Claim C10: the `_is_present` pre-scan reports a flag from a mere prefix
match — the non-flag token `"-something"` (not `-s`, not `--select`) makes
the select-mode pre-scan true and thereby turns on the `required=` rule for
`--flag`, while the same token with `x` in place of `s` does not — and the
row pre-scan tests the text `--row_id`, which no token of the long form
`--row=...` ever starts with, so such a token never makes the row pre-scan
true. -/
theorem c10_prescan_prefix_behavior :
    (ArgInterface.is_present [("-something".toList)]
        (some ("-s".toList)) ("--select".toList) = true ∧
      ("-something".toList) ≠ ("-s".toList) ∧
      ("-something".toList) ≠ ("--select".toList) ∧
      ArgInterface.req_flag [("-something".toList)] = true ∧
      ArgInterface.req_flag [("-xomething".toList)] = false) ∧
    (∀ rest : List Char,
      ArgInterface.is_present [(("--row=".toList) ++ rest)]
        (some ("-r".toList)) ("--row_id".toList) = false) ∧
    (∀ args : List (List Char), ∀ rest : List Char,
      ArgInterface.preRow ((("--row=".toList) ++ rest) :: args)
        = ArgInterface.preRow args) := by
  exact ⟨by decide, fun rest => rfl, fun args rest => rfl⟩

end StopSpot
